import Mathlib

/-!
Verification development for the `networks_and_filesystems` repository.

Shallow embedding of the two cores:
* `src/nfs4/src/server.rs` (NFSv4 COMPOUND executor and operation handlers),
  `src/nfs4/src/protocol.rs`, `src/nfs4/src/rpc.rs`, `src/nfs4/src/main.rs`;
* `src/network/src/subnet_interface.rs` (subnet validation and allocation).

Modelling conventions:
* Rust `PathBuf` is `RPath`: an absolute-flag plus a list of components.
  `RPath.join` mirrors `Path::join`: an absolute right-hand operand replaces
  the base entirely, otherwise components are appended verbatim (`..` and
  multi-component names are kept as written, as `Path::join` does).
  Client-supplied names (`object_name : String`, the `OpenClaim::Null` path)
  are represented by their parsed path value.
* The 16 random bytes of a filehandle / stateid are modelled as an abstract
  token drawn from the environment's randomness stream `Env.fresh`, indexed
  by a per-server draw counter `Sys.ctr`.
* OS outcomes that the code observes only as success/failure (sync, seek,
  `try_clone`, `File::create`, `fs::create_dir`, post-open read/write errors)
  are fault oracles in `Env`, indexed by the path involved.  A `tokio::fs`
  open/metadata call succeeds or fails according to the modelled filesystem
  `Sys.fs` (a finite map from paths to nodes).
* `OpenOptions::new().read(r).write(w).create(true).open(p)` follows the
  documented standard-library semantics: requesting `create` without write
  access fails with `EINVAL` before touching the filesystem; otherwise an
  existing regular file opens, an existing directory fails to open for
  writing, and a missing file is created empty.
* An `anyhow` error propagated with `?` out of an operation handler is
  `Except.error` of `RErr`; the only `?` sites inside `server.rs` handlers
  are `try_clone`, `seek` and `sync_all`.
-/

namespace NF

/-- Rust `PathBuf`: absolute flag plus components (kept verbatim, as
`Path::join` keeps them). -/
structure RPath where
  absolute : Bool
  comps : List String
deriving DecidableEq

/-- `Path::join`: an absolute right-hand side replaces the whole path,
otherwise the components are appended. -/
def RPath.join (p q : RPath) : RPath :=
  if q.absolute then q else ⟨p.absolute, p.comps ++ q.comps⟩

/-- The first list is an initial segment of the second. -/
def isSeqStart : List String → List String → Bool
  | [], _ => true
  | _ :: _, [] => false
  | a :: as, b :: bs => a == b && isSeqStart as bs

/-- `root` is a syntactic prefix of `p` (the spec's "prefix-extension"). -/
def pathExtends (root p : RPath) : Bool :=
  root.absolute == p.absolute && isSeqStart root.comps p.comps

/-- A filesystem node: a regular file with its byte content, or a directory. -/
inductive FsNode where
  | file (content : List Nat)
  | dir
deriving DecidableEq

/-- First-match association lookup (`HashMap::get`; inserts are conses, so the
most recent insert for a key wins, matching `HashMap::insert` replacement). -/
def findKey {κ ν : Type} [DecidableEq κ] : List (κ × ν) → κ → Option ν
  | [], _ => none
  | (k', v) :: rest, k => if k' = k then some v else findKey rest k

/-- Remove every binding of a key (`HashMap::remove`). -/
def removeKey {κ ν : Type} [DecidableEq κ] (l : List (κ × ν)) (k : κ) : List (κ × ν) :=
  l.filter (fun kv => kv.1 ≠ k)

-- Constants from src/nfs4/src/protocol.rs.

def NFS_VERSION : Nat := 4
def NFS_PROGRAM : Nat := 100003

def NF4REG : Nat := 1
def NF4DIR : Nat := 2

def ACCESS4_READ : Nat := 0x00000001
def ACCESS4_LOOKUP : Nat := 0x00000002
def ACCESS4_MODIFY : Nat := 0x00000004
def ACCESS4_EXTEND : Nat := 0x00000008
def ACCESS4_DELETE : Nat := 0x00000010
def ACCESS4_EXECUTE : Nat := 0x00000020

/-- `NfsStatus` from protocol.rs. -/
inductive NfsStatus where
  | Ok
  | Error
  | BadHandle
  | BadType
  | NoEnt
  | IoError
  | NoSpace
  | BadName
  | RoFs
  | StaleFileHandle
  | BadStateid
  | BadSeqid
deriving DecidableEq

/-- `NfsTime` from protocol.rs. -/
structure NfsTime where
  seconds : Nat
  nseconds : Nat
deriving DecidableEq

/-- `NfsFileAttributes` from protocol.rs. -/
structure NfsFileAttributes where
  type_ : Nat
  mode : Nat
  size : Nat
  space_used : Nat
  time_access : NfsTime
  time_modify : NfsTime
  owner : String
  group : String
deriving DecidableEq

structure AccessOperation where
  access : Nat
deriving DecidableEq

structure CloseOperation where
  seqid : Nat
  open_stateid : Nat
deriving DecidableEq

structure CommitOperation where
  offset : Nat
  count : Nat
deriving DecidableEq

/-- `CreateOperation`; `object_name : String` is represented by its parsed
path value (see module docstring). -/
structure CreateOperation where
  object_type : Nat
  object_name : RPath
  attributes : NfsFileAttributes
deriving DecidableEq

structure GetAttrOperation where
  attr_request : List Nat
deriving DecidableEq

structure GetFhOperation
deriving DecidableEq

structure LookupOperation where
  object_name : RPath
deriving DecidableEq

structure LookuppOperation
deriving DecidableEq

inductive OpenClaim where
  | Null (p : RPath)
  | Previous (p : RPath)
  | Delegate (p : RPath)
deriving DecidableEq

structure OpenOperation where
  seqid : Nat
  share_access : Nat
  share_deny : Nat
  owner : List Nat
  open_claim : OpenClaim
deriving DecidableEq

structure OpenConfirmOperation where
  open_stateid : Nat
  seqid : Nat
deriving DecidableEq

structure ReadOperation where
  stateid : Nat
  offset : Nat
  count : Nat
deriving DecidableEq

structure WriteOperation where
  stateid : Nat
  offset : Nat
  stable : Nat
  data : List Nat
deriving DecidableEq

/-- `NfsOperation` from protocol.rs. -/
inductive NfsOperation where
  | Access (args : AccessOperation)
  | Close (args : CloseOperation)
  | Commit (args : CommitOperation)
  | Create (args : CreateOperation)
  | GetAttr (args : GetAttrOperation)
  | GetFh (args : GetFhOperation)
  | Lookup (args : LookupOperation)
  | Lookupp (args : LookuppOperation)
  | Open (args : OpenOperation)
  | OpenConfirm (args : OpenConfirmOperation)
  | Read (args : ReadOperation)
  | Write (args : WriteOperation)
deriving DecidableEq

/-- `OperationData` from protocol.rs; filehandles and stateids are abstract
tokens. -/
inductive OperationData where
  | Access (allowed : Nat)
  | GetAttr (attrs : NfsFileAttributes)
  | GetFh (h : Nat)
  | Read (data : List Nat)
  | Write (count : Nat)
  | Open (stateid : Nat)
deriving DecidableEq

structure OperationResult where
  status : NfsStatus
  result : Option OperationData
deriving DecidableEq

structure CompoundRequest where
  tag : String
  minor_version : Nat
  operations : List NfsOperation
deriving DecidableEq

structure CompoundResponse where
  tag : String
  status : NfsStatus
  results : List OperationResult
deriving DecidableEq

/-- `FileState` from server.rs; the owned open `File` descriptor is modelled
by the path it was opened at. -/
structure FileState where
  path : RPath
  open_mode : Nat
  seqid : Nat
  file : Option RPath
deriving DecidableEq

/-- The mutable server state: the modelled filesystem, the handle table, the
stateid table, and the randomness draw counter. -/
structure Sys where
  fs : List (RPath × FsNode)
  handles : List (Nat × RPath)
  stateids : List (Nat × FileState)
  ctr : Nat
deriving DecidableEq

/-- Non-content metadata an `fs::metadata` call reports (mode, ownership,
times, block count, and a directory's `len()`). -/
structure MetaInfo where
  mode : Nat
  uid : Nat
  gid : Nat
  atimeSec : Nat
  atimeNsec : Nat
  mtimeSec : Nat
  mtimeNsec : Nat
  blocks : Nat
  dirLen : Nat

/-- The environment: export root, randomness stream, process uid/gid,
metadata oracle, and fault oracles for the OS calls whose failure the code
observes only as an `Err` (see module docstring). -/
structure Env where
  exportRoot : RPath
  fresh : Nat → Nat
  uid : Nat
  gid : Nat
  metaInfo : RPath → MetaInfo
  cloneFail : RPath → Bool
  seekFail : RPath → Bool
  syncFail : RPath → Bool
  readFail : RPath → Bool
  writeFail : RPath → Bool
  createFileFail : RPath → Bool
  createDirFail : RPath → Bool

/-- The `anyhow` errors that can escape an operation handler via `?`:
`try_clone`, `seek`, and `sync_all` failures. -/
inductive RErr where
  | cloneFail
  | seekFail
  | syncFail
deriving DecidableEq

/-- Draw the next random token (16 random bytes in the source). -/
def freshTok (env : Env) (sys : Sys) : Nat × Sys :=
  (env.fresh sys.ctr, { sys with ctr := sys.ctr + 1 })

def fsFind (sys : Sys) (p : RPath) : Option FsNode :=
  findKey sys.fs p

/-- Contents written at an offset: `seek(Start offset)` then `write_all`,
zero-filling any gap past the previous end of file. -/
def writeAt (old : List Nat) (off : Nat) (data : List Nat) : List Nat :=
  old.take off ++ List.replicate (off - old.length) 0 ++ data ++ old.drop (off + data.length)

/-- `handle_access` (server.rs:92-147). -/
def handle_access (env : Env) (sys : Sys) (args : AccessOperation)
    (current_fh : Option Nat) : Except RErr (OperationResult × Sys) :=
  match current_fh with
  | none => .ok (⟨.BadHandle, none⟩, sys)
  | some fh =>
    match findKey sys.handles fh with
    | none => .ok (⟨.StaleFileHandle, none⟩, sys)
    | some path =>
      match fsFind sys path with
      | none => .ok (⟨.NoEnt, none⟩, sys)
      | some _ =>
        let mi := env.metaInfo path
        let allowed : Nat :=
          if env.uid = mi.uid then
            (if mi.mode &&& 0o400 ≠ 0 then ACCESS4_READ else 0) |||
            (if mi.mode &&& 0o200 ≠ 0 then ACCESS4_MODIFY ||| ACCESS4_EXTEND else 0) |||
            (if mi.mode &&& 0o100 ≠ 0 then ACCESS4_EXECUTE else 0)
          else if env.gid = mi.gid then
            (if mi.mode &&& 0o040 ≠ 0 then ACCESS4_READ else 0) |||
            (if mi.mode &&& 0o020 ≠ 0 then ACCESS4_MODIFY ||| ACCESS4_EXTEND else 0) |||
            (if mi.mode &&& 0o010 ≠ 0 then ACCESS4_EXECUTE else 0)
          else
            (if mi.mode &&& 0o004 ≠ 0 then ACCESS4_READ else 0) |||
            (if mi.mode &&& 0o002 ≠ 0 then ACCESS4_MODIFY ||| ACCESS4_EXTEND else 0) |||
            (if mi.mode &&& 0o001 ≠ 0 then ACCESS4_EXECUTE else 0)
        .ok (⟨.Ok, some (.Access (allowed &&& args.access))⟩, sys)

/-- `handle_close` (server.rs:149-162). -/
def handle_close (sys : Sys) (args : CloseOperation) : Except RErr (OperationResult × Sys) :=
  match findKey sys.stateids args.open_stateid with
  | some _ =>
    .ok (⟨.Ok, none⟩, { sys with stateids := removeKey sys.stateids args.open_stateid })
  | none => .ok (⟨.BadStateid, none⟩, sys)

/-- `handle_commit` (server.rs:164-192): `File::open` succeeds iff the node
exists; then `sync_all` may fail, and that failure propagates via `?`. -/
def handle_commit (env : Env) (sys : Sys) (_args : CommitOperation)
    (current_fh : Option Nat) : Except RErr (OperationResult × Sys) :=
  match current_fh with
  | none => .ok (⟨.BadHandle, none⟩, sys)
  | some fh =>
    match findKey sys.handles fh with
    | none => .ok (⟨.StaleFileHandle, none⟩, sys)
    | some path =>
      match fsFind sys path with
      | none => .ok (⟨.IoError, none⟩, sys)
      | some _ =>
        if env.syncFail path then .error .syncFail
        else .ok (⟨.Ok, none⟩, sys)

/-- `handle_create` (server.rs:194-257). -/
def handle_create (env : Env) (sys : Sys) (args : CreateOperation)
    (current_fh : Option Nat) : Except RErr (OperationResult × Sys) :=
  match current_fh with
  | none => .ok (⟨.BadHandle, none⟩, sys)
  | some fh =>
    match findKey sys.handles fh with
    | none => .ok (⟨.StaleFileHandle, none⟩, sys)
    | some parent_path =>
      let new_path := parent_path.join args.object_name
      if args.object_type = NF4REG then
        if env.createFileFail new_path then .ok (⟨.IoError, none⟩, sys)
        else
          let sys1 := { sys with fs := (new_path, .file []) :: sys.fs }
          let (h, sys2) := freshTok env sys1
          .ok (⟨.Ok, some (.GetFh h)⟩,
               { sys2 with handles := (h, new_path) :: sys2.handles })
      else if args.object_type = NF4DIR then
        if env.createDirFail new_path then .ok (⟨.IoError, none⟩, sys)
        else
          let sys1 := { sys with fs := (new_path, .dir) :: sys.fs }
          let (h, sys2) := freshTok env sys1
          .ok (⟨.Ok, some (.GetFh h)⟩,
               { sys2 with handles := (h, new_path) :: sys2.handles })
      else .ok (⟨.BadType, none⟩, sys)

/-- `handle_getattr` (server.rs:259-303). -/
def handle_getattr (env : Env) (sys : Sys) (_args : GetAttrOperation)
    (current_fh : Option Nat) : Except RErr (OperationResult × Sys) :=
  match current_fh with
  | none => .ok (⟨.BadHandle, none⟩, sys)
  | some fh =>
    match findKey sys.handles fh with
    | none => .ok (⟨.StaleFileHandle, none⟩, sys)
    | some path =>
      match fsFind sys path with
      | none => .ok (⟨.NoEnt, none⟩, sys)
      | some node =>
        let mi := env.metaInfo path
        let attrs : NfsFileAttributes :=
          { type_ := match node with | .dir => NF4DIR | .file _ => NF4REG
            mode := mi.mode
            size := match node with | .file c => c.length | .dir => mi.dirLen
            space_used := mi.blocks * 512
            time_access := ⟨mi.atimeSec, mi.atimeNsec⟩
            time_modify := ⟨mi.mtimeSec, mi.mtimeNsec⟩
            owner := toString mi.uid
            group := toString mi.gid }
        .ok (⟨.Ok, some (.GetAttr attrs)⟩, sys)

/-- `handle_getfh` (server.rs:305-315): returns a fresh random handle and —
as in the source — registers nothing in the handle table. -/
def handle_getfh (env : Env) (sys : Sys) (_args : GetFhOperation) :
    Except RErr (OperationResult × Sys) :=
  let (h, sys') := freshTok env sys
  .ok (⟨.Ok, some (.GetFh h)⟩, sys')

/-- `handle_lookup` (server.rs:317-351). -/
def handle_lookup (env : Env) (sys : Sys) (args : LookupOperation)
    (current_fh : Option Nat) : Except RErr (OperationResult × Sys) :=
  match current_fh with
  | none => .ok (⟨.BadHandle, none⟩, sys)
  | some fh =>
    match findKey sys.handles fh with
    | none => .ok (⟨.StaleFileHandle, none⟩, sys)
    | some parent_path =>
      let path := parent_path.join args.object_name
      match fsFind sys path with
      | none => .ok (⟨.NoEnt, none⟩, sys)
      | some _ =>
        let (h, sys') := freshTok env sys
        .ok (⟨.Ok, some (.GetFh h)⟩,
             { sys' with handles := (h, path) :: sys'.handles })

/-- `handle_open` (server.rs:353-396).  The stateid is drawn before the claim
is examined, as in the source; the `current_fh` parameter is taken and — as
in the source — never used.  `OpenOptions` semantics per the module
docstring: `create(true)` without write access fails with `EINVAL`. -/
def handle_open (env : Env) (sys : Sys) (args : OpenOperation)
    (current_fh : Option Nat) : Except RErr (OperationResult × Sys) :=
  let (sid, sys1) := freshTok env sys
  match args.open_claim with
  | .Null p =>
    let full_path := env.exportRoot.join p
    let wr := args.share_access &&& (ACCESS4_MODIFY ||| ACCESS4_EXTEND) ≠ 0
    let opened : Option (List (RPath × FsNode)) :=
      if ¬ wr then none
      else
        match fsFind sys1 full_path with
        | some (.file _) => some sys1.fs
        | some .dir => none
        | none => some ((full_path, .file []) :: sys1.fs)
    match opened with
    | some fs' =>
      let st : FileState :=
        { path := full_path, open_mode := args.share_access,
          seqid := args.seqid, file := some full_path }
      .ok (⟨.Ok, some (.Open sid)⟩,
           { sys1 with fs := fs', stateids := (sid, st) :: sys1.stateids })
    | none => .ok (⟨.IoError, none⟩, sys1)
  | _ => .ok (⟨.Error, none⟩, sys1)

/-- `handle_read` (server.rs:398-431): `try_clone` and `seek` failures
propagate via `?`; a failed `read` maps to `IoError`; otherwise up to `count`
bytes from `offset` are returned (short at end of file). -/
def handle_read (env : Env) (sys : Sys) (args : ReadOperation) :
    Except RErr (OperationResult × Sys) :=
  match findKey sys.stateids args.stateid with
  | none => .ok (⟨.BadStateid, none⟩, sys)
  | some st =>
    match st.file with
    | none => .ok (⟨.IoError, none⟩, sys)
    | some fd =>
      if env.cloneFail fd then .error .cloneFail
      else if env.seekFail fd then .error .seekFail
      else if env.readFail fd then .ok (⟨.IoError, none⟩, sys)
      else
        let content := match fsFind sys fd with | some (.file c) => c | _ => []
        .ok (⟨.Ok, some (.Read ((content.drop args.offset).take args.count))⟩, sys)

/-- `handle_write` (server.rs:433-467): `try_clone`, `seek` and (for
`stable != 0`) `sync_all` failures propagate via `?`; a failed `write_all`
maps to `IoError`. -/
def handle_write (env : Env) (sys : Sys) (args : WriteOperation) :
    Except RErr (OperationResult × Sys) :=
  match findKey sys.stateids args.stateid with
  | none => .ok (⟨.BadStateid, none⟩, sys)
  | some st =>
    match st.file with
    | none => .ok (⟨.IoError, none⟩, sys)
    | some fd =>
      if env.cloneFail fd then .error .cloneFail
      else if env.seekFail fd then .error .seekFail
      else if env.writeFail fd then .ok (⟨.IoError, none⟩, sys)
      else
        let old := match fsFind sys fd with | some (.file c) => c | _ => []
        let sys' := { sys with fs := (fd, .file (writeAt old args.offset args.data)) :: sys.fs }
        if args.stable ≠ 0 then
          if env.syncFail fd then .error .syncFail
          else .ok (⟨.Ok, some (.Write args.data.length)⟩, sys')
        else .ok (⟨.Ok, some (.Write args.data.length)⟩, sys')

/-- One iteration body of the `handle_compound` loop (server.rs:49-79):
dispatch the operation and apply the current-filehandle updates done in the
`GetFh` and `Lookup` match arms.  Returns the result, the new cursor, and
the new state. -/
def dispatch (env : Env) (op : NfsOperation) (current_fh : Option Nat) (sys : Sys) :
    Except RErr (OperationResult × Option Nat × Sys) :=
  match op with
  | .Access args =>
    match handle_access env sys args current_fh with
    | .error e => .error e
    | .ok (res, sys') => .ok (res, current_fh, sys')
  | .Close args =>
    match handle_close sys args with
    | .error e => .error e
    | .ok (res, sys') => .ok (res, current_fh, sys')
  | .Commit args =>
    match handle_commit env sys args current_fh with
    | .error e => .error e
    | .ok (res, sys') => .ok (res, current_fh, sys')
  | .Create args =>
    match handle_create env sys args current_fh with
    | .error e => .error e
    | .ok (res, sys') => .ok (res, current_fh, sys')
  | .GetAttr args =>
    match handle_getattr env sys args current_fh with
    | .error e => .error e
    | .ok (res, sys') => .ok (res, current_fh, sys')
  | .GetFh args =>
    match handle_getfh env sys args with
    | .error e => .error e
    | .ok (res, sys') =>
      match res.result with
      | some (.GetFh fh) => .ok (res, some fh, sys')
      | _ => .ok (res, current_fh, sys')
  | .Lookup args =>
    match handle_lookup env sys args current_fh with
    | .error e => .error e
    | .ok (res, sys') =>
      if res.status = .Ok then
        match res.result with
        | some (.GetFh fh) => .ok (res, some fh, sys')
        | _ => .ok (res, current_fh, sys')
      else .ok (res, current_fh, sys')
  | .Open args =>
    match handle_open env sys args current_fh with
    | .error e => .error e
    | .ok (res, sys') => .ok (res, current_fh, sys')
  | .Read args =>
    match handle_read env sys args with
    | .error e => .error e
    | .ok (res, sys') => .ok (res, current_fh, sys')
  | .Write args =>
    match handle_write env sys args with
    | .error e => .error e
    | .ok (res, sys') => .ok (res, current_fh, sys')
  | .Lookupp _ => .ok (⟨.Error, none⟩, current_fh, sys)
  | .OpenConfirm _ => .ok (⟨.Error, none⟩, current_fh, sys)

/-- The `for operation in request.operations` loop of `handle_compound`
(server.rs:44-83): break when the carried status is not `Ok`, otherwise
dispatch, append the result, and carry the result's status forward. -/
def compoundLoop (env : Env) :
    List NfsOperation → NfsStatus → Option Nat → Sys →
    Except RErr (List OperationResult × NfsStatus × Sys)
  | [], status, _, sys => .ok ([], status, sys)
  | op :: rest, status, current_fh, sys =>
    if status = .Ok then
      match dispatch env op current_fh sys with
      | .error e => .error e
      | .ok (res, cfh', sys') =>
        match compoundLoop env rest res.status cfh' sys' with
        | .error e => .error e
        | .ok (tail, status', sys'') => .ok (res :: tail, status', sys'')
    else .ok ([], status, sys)

/-- `handle_compound` (server.rs:39-90). -/
def handle_compound (env : Env) (sys : Sys) (request : CompoundRequest) :
    Except RErr (CompoundResponse × Sys) :=
  match compoundLoop env request.operations .Ok none sys with
  | .error e => .error e
  | .ok (results, status, sys') =>
    .ok ({ tag := request.tag, status := status, results := results }, sys')

/-!
RPC layer, from src/nfs4/src/rpc.rs and the per-message body of
`handle_client` in src/nfs4/src/main.rs (lines 72-99).  XDR byte-level
encoding is delegated to `serde_xdr` in the source; here the decoder and
encoder are oracles supplied by `RpcEnv`, with a decode failure represented
as `none`.
-/

def RPC_CALL : Nat := 0
def RPC_REPLY : Nat := 1
def RPC_VERSION : Nat := 2
def MSG_ACCEPTED : Nat := 0
def MSG_DENIED : Nat := 1
def SUCCESS : Nat := 0
def PROG_UNAVAIL : Nat := 1
def PROG_MISMATCH : Nat := 2
def PROC_UNAVAIL : Nat := 3
def GARBAGE_ARGS : Nat := 4
def AUTH_NONE : Nat := 0

structure OpaqueAuth where
  flavor : Nat
  body : List Nat
deriving DecidableEq

structure CallBody where
  rpc_vers : Nat
  prog : Nat
  prog_vers : Nat
  proc : Nat
  cred : OpaqueAuth
  verf : OpaqueAuth
  data : List Nat
deriving DecidableEq

structure AcceptedReply where
  verf : OpaqueAuth
  stat : Nat
  data : List Nat
deriving DecidableEq

structure RejectedReply where
  stat : Nat
  data : List Nat
deriving DecidableEq

inductive ReplyData where
  | Accepted (r : AcceptedReply)
  | Rejected (r : RejectedReply)
deriving DecidableEq

structure ReplyBody where
  reply_stat : Nat
  data : ReplyData
deriving DecidableEq

inductive RpcMsgBody where
  | Call (c : CallBody)
  | Reply (r : ReplyBody)
deriving DecidableEq

structure RpcMsg where
  xid : Nat
  body : RpcMsgBody
deriving DecidableEq

/-- `RpcMsg::new_success_reply` (rpc.rs:113-128). -/
def new_success_reply (xid : Nat) (data : List Nat) : RpcMsg :=
  { xid := xid,
    body := .Reply { reply_stat := MSG_ACCEPTED,
                     data := .Accepted { verf := ⟨AUTH_NONE, []⟩, stat := SUCCESS,
                                         data := data } } }

/-- `RpcMsg::new_prog_mismatch_reply` (rpc.rs:130-145). -/
def new_prog_mismatch_reply (xid : Nat) : RpcMsg :=
  { xid := xid,
    body := .Reply { reply_stat := MSG_ACCEPTED,
                     data := .Accepted { verf := ⟨AUTH_NONE, []⟩, stat := PROG_MISMATCH,
                                         data := [] } } }

/-- `RpcMsg::new_garbage_args_reply` (rpc.rs:147-162); defined in the source
and never called. -/
def new_garbage_args_reply (xid : Nat) : RpcMsg :=
  { xid := xid,
    body := .Reply { reply_stat := MSG_ACCEPTED,
                     data := .Accepted { verf := ⟨AUTH_NONE, []⟩, stat := GARBAGE_ARGS,
                                         data := [] } } }

/-- XDR codec oracles (`serde_xdr::from_bytes` / `serde_xdr::to_bytes`). -/
structure RpcEnv where
  xdrDecodeCompound : List Nat → Option CompoundRequest
  xdrEncodeResponse : CompoundResponse → List Nat

/-- The errors on which `handle_client` returns `Err`, terminating the
connection: an XDR decode failure of the COMPOUND payload (main.rs:78), or
an error propagated out of `handle_compound` (main.rs:79). -/
inductive ClientErr where
  | decodeError
  | serverError (e : RErr)
deriving DecidableEq

/-- Processing of one decoded RPC message inside `handle_client`
(main.rs:75-99): a Call for program 100003 version 4 has its COMPOUND
payload decoded (a failure propagates via `?`, ending the connection with no
reply) and handled; every other message gets a PROG_MISMATCH reply. -/
def processRpcMsg (renv : RpcEnv) (env : Env) (sys : Sys) (msg : RpcMsg) :
    Except ClientErr (RpcMsg × Sys) :=
  match msg.body with
  | .Call c =>
    if c.prog = NFS_PROGRAM ∧ c.prog_vers = NFS_VERSION then
      match renv.xdrDecodeCompound c.data with
      | none => .error .decodeError
      | some request =>
        match handle_compound env sys request with
        | .error e => .error (.serverError e)
        | .ok (response, sys') =>
          .ok (new_success_reply msg.xid (renv.xdrEncodeResponse response), sys')
    else .ok (new_prog_mismatch_reply msg.xid, sys)
  | .Reply _ => .ok (new_prog_mismatch_reply msg.xid, sys)

/-!
Subnet manager, from src/network/src/subnet_interface.rs.  An `Ipv4Net` is
its (unmasked) address and prefix length; `containsA` is the crate's
`contains` test `network() <= a <= broadcast()`, expressed as equality of
the two addresses' quotients by the block size `2^(32-prefix)` (these agree
for all addresses since `network()` truncates `addr` to a multiple of the
block size).  Shell command outcomes are oracles in `NetEnv`.
-/

structure Ipv4Net where
  addr : Nat
  prefixLen : Nat
deriving DecidableEq

/-- Size of a CIDR block with the given prefix length. -/
def blockSize (p : Nat) : Nat := 2 ^ (32 - p)

/-- `Ipv4Net::contains(&Ipv4Addr)`: the address lies in the network's
`network()..=broadcast()` range, i.e. in the same aligned block. -/
def containsA (n : Ipv4Net) (a : Nat) : Bool :=
  a / blockSize n.prefixLen == n.addr / blockSize n.prefixLen

/-- `ALLOWED_NETWORK`: 10.0.0.0/8. -/
def ALLOWED_NETWORK : Ipv4Net := ⟨10 * 2 ^ 24, 8⟩

/-- First protected network: 127.0.0.0/8 (localhost). -/
def PROTECTED_LO : Ipv4Net := ⟨127 * 2 ^ 24, 8⟩

/-- Second protected network: 169.254.0.0/16 (link-local). -/
def PROTECTED_LL : Ipv4Net := ⟨169 * 2 ^ 24 + 254 * 2 ^ 16, 16⟩

inductive NetErr where
  | invalidNetwork
  | inUse
  | exhausted
  | configFailed
deriving DecidableEq

/-- `validate_network` (subnet_interface.rs:41-64), with the
`PROTECTED_NETWORKS` loop unrolled over its two elements. -/
def validate_network (network : Ipv4Net) : Except NetErr Unit :=
  if ¬ containsA ALLOWED_NETWORK network.addr then .error .invalidNetwork
  else if containsA PROTECTED_LO network.addr || containsA network PROTECTED_LO.addr then
    .error .invalidNetwork
  else if containsA PROTECTED_LL network.addr || containsA network PROTECTED_LL.addr then
    .error .invalidNetwork
  else .ok ()

/-- Outcomes of the shell commands the subnet manager runs: `probe n` is the
exit success of `ifconfig lo0:n` (BSD) / `ip link show dummyn` (Linux);
`hostAddrs` are the host's configured IPv4 addresses
(`default_net::get_interfaces`); the remaining flags are the success of the
privileged install commands. -/
structure NetEnv where
  probe : Nat → Bool
  hostAddrs : List Nat
  aliasAddOk : Bool
  linkAddOk : Bool
  addrAddOk : Bool
  linkUpOk : Bool

/-- A configured `Subnet` record; the interface (`lo0:N` / `dummyN`) is
modelled by its number. -/
structure Subnet where
  ifaceNum : Nat
  network : Ipv4Net
deriving DecidableEq

/-- `is_subnet_available` (subnet_interface.rs:160-174). -/
def is_subnet_available (env : NetEnv) (network : Ipv4Net) : Except NetErr Bool :=
  match validate_network network with
  | .error e => .error e
  | .ok () => .ok (! env.hostAddrs.any (fun a => containsA network a))

/-- The `while alias_num < 255` search of the macOS `configure_subnet`
(subnet_interface.rs:188-198), fuel-indexed to mirror the loop's bounded
iteration count (fuel 255 from 0 covers every iteration the loop can make). -/
def aliasSearch (probe : Nat → Bool) : Nat → Nat → Nat
  | 0, k => k
  | fuel + 1, k =>
    if k < 255 then
      if probe k then aliasSearch probe fuel (k + 1) else k
    else k

/-- `configure_subnet`, macOS variant (subnet_interface.rs:176-227). -/
def configure_subnet_macos (env : NetEnv) (network : Ipv4Net) : Except NetErr Subnet :=
  match validate_network network with
  | .error e => .error e
  | .ok () =>
    match is_subnet_available env network with
    | .error e => .error e
    | .ok false => .error .inUse
    | .ok true =>
      let alias_num := aliasSearch env.probe 255 0
      if alias_num = 255 then .error .exhausted
      else if env.aliasAddOk then .ok ⟨alias_num, network⟩
      else .error .configFailed

/-- The `while interface_num < 255` loop of the Linux `configure_subnet`
(subnet_interface.rs:241-283): on the first probe failure the dummy link is
created, addressed, and brought up inside the loop; falling out of the loop
is exhaustion. -/
def dummyLoop (env : NetEnv) (network : Ipv4Net) : Nat → Nat → Except NetErr Subnet
  | 0, _ => .error .exhausted
  | fuel + 1, k =>
    if k < 255 then
      if env.probe k then dummyLoop env network fuel (k + 1)
      else if ¬ env.linkAddOk then .error .configFailed
      else if ¬ env.addrAddOk then .error .configFailed
      else if ¬ env.linkUpOk then .error .configFailed
      else .ok ⟨k, network⟩
    else .error .exhausted

/-- `configure_subnet`, Linux variant (subnet_interface.rs:229-286). -/
def configure_subnet_linux (env : NetEnv) (network : Ipv4Net) : Except NetErr Subnet :=
  match validate_network network with
  | .error e => .error e
  | .ok () =>
    match is_subnet_available env network with
    | .error e => .error e
    | .ok false => .error .inUse
    | .ok true => dummyLoop env network 255 0

/-!
Concrete fixtures used by the evaluation theorems and witnesses: the export
root `/tmp/nfs_root` of main.rs, an identity randomness stream, fault-free
oracles, and an initial state whose filesystem holds only the export root
directory.
-/

/-- The export root `/tmp/nfs_root` (main.rs:22). -/
def R : RPath := ⟨true, ["tmp", "nfs_root"]⟩

/-- Sample metadata: mode 755, uid/gid 0, small times, 8 blocks, dir len 64. -/
def mi0 : MetaInfo := ⟨0o755, 0, 0, 1, 2, 3, 4, 8, 64⟩

/-- Fault-free environment with identity token stream. -/
def env0 : Env :=
  { exportRoot := R, fresh := fun k => k, uid := 0, gid := 0,
    metaInfo := fun _ => mi0,
    cloneFail := fun _ => false, seekFail := fun _ => false, syncFail := fun _ => false,
    readFail := fun _ => false, writeFail := fun _ => false,
    createFileFail := fun _ => false, createDirFail := fun _ => false }

/-- Fresh-start state: empty tables, export root directory present. -/
def sys0 : Sys := ⟨[(R, FsNode.dir)], [], [], 0⟩

/-!
C1 — the COMPOUND executor's control flow.
-/

/-- Status of the last executed operation, `Ok` for an empty result list. -/
def lastStatus : List OperationResult → NfsStatus
  | [] => .Ok
  | [r] => r.status
  | _ :: rest => lastStatus rest

/-- Every result except possibly the last has status `Ok`. -/
def allButLastOk : List OperationResult → Bool
  | [] => true
  | [_] => true
  | r :: rest => (r.status == .Ok) && allButLastOk rest

/-- Invariants of the `handle_compound` loop, by induction on the operation
list: short-circuiting, status threading, and the results-length bound. -/
theorem compoundLoop_props (env : Env) :
    ∀ (ops : List NfsOperation) (st : NfsStatus) (cfh : Option Nat) (sys : Sys)
      (rs : List OperationResult) (st' : NfsStatus) (sys' : Sys),
      compoundLoop env ops st cfh sys = .ok (rs, st', sys') →
      (st ≠ .Ok → rs = []) ∧
      (rs = [] → st' = st) ∧
      (st = .Ok → st' = lastStatus rs) ∧
      rs.length ≤ ops.length ∧
      allButLastOk rs = true ∧
      (st = .Ok → rs.length < ops.length → st' ≠ .Ok) := by
  intro ops
  induction ops with
  | nil =>
    intro st cfh sys rs st' sys' h
    simp only [compoundLoop] at h
    cases h
    refine ⟨fun _ => rfl, fun _ => rfl, fun hst => ?_, le_refl _, rfl, fun _ h0 => absurd h0 (by simp)⟩
    simpa [lastStatus] using hst
  | cons op rest ih =>
    intro st cfh sys rs st' sys' h
    simp only [compoundLoop] at h
    by_cases hst : st = .Ok
    · rw [if_pos hst] at h
      split at h
      · cases h
      rename_i res cfh2 sys1 hd
      split at h
      · cases h
      rename_i tail st2 sys2 hl
      injection h with h1
      injection h1 with hrs h2
      injection h2 with hst2 hsys2
      subst hrs
      subst hst2
      subst hsys2
      obtain ⟨ta, tb, tc, td, te, tf⟩ := ih res.status cfh2 sys1 tail st2 sys2 hl
      refine ⟨fun hne => absurd hst hne, fun he => absurd he (by simp), fun _ => ?_,
              by simpa using Nat.succ_le_succ td, ?_, fun _ hlen => ?_⟩
      · cases tail with
        | nil => simpa [lastStatus] using tb rfl
        | cons t ts =>
          have hres : res.status = .Ok := by
            by_contra hne
            exact absurd (ta hne) (by simp)
          simpa [lastStatus] using tc hres
      · cases tail with
        | nil => simp [allButLastOk]
        | cons t ts =>
          have hres : res.status = .Ok := by
            by_contra hne
            exact absurd (ta hne) (by simp)
          simp only [allButLastOk, Bool.and_eq_true]
          exact And.intro (by simp [hres]) te
      · by_cases hres : res.status = .Ok
        · exact tf hres (by simpa using Nat.lt_of_succ_lt_succ hlen)
        · have htail : tail = [] := ta hres
          rw [tb htail]
          exact hres
    · rw [if_neg hst] at h
      cases h
      exact ⟨fun _ => rfl, fun _ => rfl, fun he => absurd he hst, Nat.zero_le _, rfl,
             fun he => absurd he hst⟩

/-- C1: whenever `handle_compound` returns a response, the response echoes
the request's tag; the results list has at most one entry per operation, in
execution order; every result before the last is `Ok`; the terminal status
is the last executed operation's status (`Ok` when no operation ran); and
when fewer results than operations are returned the terminal status is
non-`Ok` — together: `results.len()` is the index plus one of the first
non-Ok operation, or the operation count when all returned Ok. -/
theorem c1_compound_executor (env : Env) (sys : Sys) (request : CompoundRequest)
    (resp : CompoundResponse) (sys' : Sys)
    (h : handle_compound env sys request = .ok (resp, sys')) :
    resp.tag = request.tag ∧
    resp.results.length ≤ request.operations.length ∧
    allButLastOk resp.results = true ∧
    resp.status = lastStatus resp.results ∧
    (resp.results.length < request.operations.length → resp.status ≠ .Ok) := by
  unfold handle_compound at h
  cases hl : compoundLoop env request.operations .Ok none sys with
  | error e => rw [hl] at h; cases h
  | ok w =>
    obtain ⟨results, status, sysq⟩ := w
    rw [hl] at h
    cases h
    obtain ⟨_, _, tc, td, te, tf⟩ :=
      compoundLoop_props env request.operations .Ok none sys results status sys' hl
    exact ⟨rfl, td, te, tc rfl, tf rfl⟩

/-- Witness for C1 at a concrete request `COMPOUND{tag="t", [GETFH]}`. -/
theorem c1_compound_executor_witness :
    handle_compound env0 sys0 ⟨"t", 0, [.GetFh ⟨⟩]⟩ =
      .ok (⟨"t", .Ok, [⟨.Ok, some (.GetFh 0)⟩]⟩, ⟨[(R, FsNode.dir)], [], [], 1⟩) ∧
    (⟨"t", .Ok, [⟨.Ok, some (.GetFh 0)⟩]⟩ : CompoundResponse).tag = "t" ∧
    (⟨"t", .Ok, [⟨.Ok, some (.GetFh 0)⟩]⟩ : CompoundResponse).results.length ≤ 1 ∧
    allButLastOk (⟨"t", .Ok, [⟨.Ok, some (.GetFh 0)⟩]⟩ : CompoundResponse).results = true ∧
    (⟨"t", .Ok, [⟨.Ok, some (.GetFh 0)⟩]⟩ : CompoundResponse).status =
      lastStatus (⟨"t", .Ok, [⟨.Ok, some (.GetFh 0)⟩]⟩ : CompoundResponse).results := by
  have h : handle_compound env0 sys0 ⟨"t", 0, [.GetFh ⟨⟩]⟩ =
      .ok (⟨"t", .Ok, [⟨.Ok, some (.GetFh 0)⟩]⟩, ⟨[(R, FsNode.dir)], [], [], 1⟩) := by rfl
  obtain ⟨h1, h2, h3, h4, _⟩ :=
    c1_compound_executor env0 sys0 ⟨"t", 0, [.GetFh ⟨⟩]⟩
      ⟨"t", .Ok, [⟨.Ok, some (.GetFh 0)⟩]⟩ ⟨[(R, FsNode.dir)], [], [], 1⟩ h
  exact ⟨h, h1, h2, h3, h4⟩

/-!
C2 — confinement of stored paths to the export root.
-/

/-- Every path in the handle table and every `FileState` path is a
prefix-extension of the export root. -/
def statePathsGood (env : Env) (sys : Sys) : Bool :=
  sys.handles.all (fun kv => pathExtends env.exportRoot kv.2) &&
  sys.stateids.all (fun kv => pathExtends env.exportRoot kv.2.path)

/-- The client-supplied name or claim path of an operation is relative. -/
def opNamesRelative : NfsOperation → Bool
  | .Create a => !a.object_name.absolute
  | .Lookup a => !a.object_name.absolute
  | .Open a => match a.open_claim with | .Null p => !p.absolute | _ => true
  | _ => true

def reqNamesRelative (req : CompoundRequest) : Bool :=
  req.operations.all opNamesRelative

theorem isSeqStart_refl (l : List String) : isSeqStart l l = true := by
  induction l with
  | nil => rfl
  | cons a as ih => simp [isSeqStart, ih]

theorem isSeqStart_append (r : List String) :
    ∀ p q, isSeqStart r p = true → isSeqStart r (p ++ q) = true := by
  induction r with
  | nil => intro p q _; rfl
  | cons a as ih =>
    intro p q h
    cases p with
    | nil => simp [isSeqStart] at h
    | cons b bs =>
      simp only [isSeqStart, Bool.and_eq_true] at h
      simpa [isSeqStart, h.1] using ih bs q h.2

theorem pathExtends_refl (p : RPath) : pathExtends p p = true := by
  simp [pathExtends, isSeqStart_refl]

theorem pathExtends_join (r p q : RPath) (h : pathExtends r p = true)
    (hq : q.absolute = false) : pathExtends r (p.join q) = true := by
  simp only [pathExtends, Bool.and_eq_true] at h
  simp [RPath.join, hq, pathExtends, h.1, isSeqStart_append _ _ _ h.2]

theorem findKey_all_snd {κ ν : Type} [DecidableEq κ] (f : ν → Bool) :
    ∀ (l : List (κ × ν)) (k : κ) (v : ν), l.all (fun kv => f kv.2) = true →
      findKey l k = some v → f v = true := by
  intro l
  induction l with
  | nil => intro k v _ h; cases h
  | cons kv rest ih =>
    intro k v hall h
    simp only [List.all_cons, Bool.and_eq_true] at hall
    simp only [findKey] at h
    by_cases hk : kv.1 = k
    · rw [if_pos hk] at h
      cases h
      exact hall.1
    · rw [if_neg hk] at h
      exact ih k v hall.2 h

theorem all_filter_of_all {α : Type} (p q : α → Bool) :
    ∀ l : List α, l.all p = true → (l.filter q).all p = true := by
  intro l
  induction l with
  | nil => intro _; rfl
  | cons a rest ih =>
    intro hall
    simp only [List.all_cons, Bool.and_eq_true] at hall
    simp only [List.filter]
    cases hq : q a with
    | false => exact ih hall.2
    | true => simp only [List.all_cons, Bool.and_eq_true]; exact ⟨hall.1, ih hall.2⟩

theorem statePathsGood_eq (env : Env) (s1 s2 : Sys) (hh : s1.handles = s2.handles)
    (hs : s1.stateids = s2.stateids) : statePathsGood env s1 = statePathsGood env s2 := by
  simp [statePathsGood, hh, hs]

theorem handle_access_state (env : Env) (sys : Sys) (args : AccessOperation)
    (cfh : Option Nat) (res : OperationResult) (sys' : Sys)
    (h : handle_access env sys args cfh = .ok (res, sys')) : sys' = sys := by
  unfold handle_access at h
  repeat' split at h
  all_goals cases h
  all_goals rfl

theorem handle_close_good (env : Env) (sys : Sys) (args : CloseOperation)
    (res : OperationResult) (sys' : Sys) (hg : statePathsGood env sys = true)
    (h : handle_close sys args = .ok (res, sys')) : statePathsGood env sys' = true := by
  unfold handle_close at h
  simp only [statePathsGood, Bool.and_eq_true] at hg ⊢
  split at h
  · cases h
    exact ⟨hg.1, all_filter_of_all _ _ _ hg.2⟩
  · cases h
    exact hg

theorem handle_commit_state (env : Env) (sys : Sys) (args : CommitOperation)
    (cfh : Option Nat) (res : OperationResult) (sys' : Sys)
    (h : handle_commit env sys args cfh = .ok (res, sys')) : sys' = sys := by
  unfold handle_commit at h
  repeat' split at h
  all_goals cases h
  all_goals rfl

theorem handle_create_good (env : Env) (sys : Sys) (args : CreateOperation)
    (cfh : Option Nat) (res : OperationResult) (sys' : Sys)
    (hrel : args.object_name.absolute = false) (hg : statePathsGood env sys = true)
    (h : handle_create env sys args cfh = .ok (res, sys')) :
    statePathsGood env sys' = true := by
  unfold handle_create at h
  dsimp only at h
  split at h
  · cases h; exact hg
  rename_i fh
  split at h
  · cases h; exact hg
  rename_i parent hfind
  have hparent : pathExtends env.exportRoot parent = true := by
    have hgh : sys.handles.all (fun kv => pathExtends env.exportRoot kv.2) = true := by
      simpa [statePathsGood, Bool.and_eq_true] using
        (by simpa [statePathsGood, Bool.and_eq_true] using hg : _ ∧ _).1
    exact findKey_all_snd (pathExtends env.exportRoot) sys.handles fh parent hgh hfind
  have hnew : pathExtends env.exportRoot (parent.join args.object_name) = true :=
    pathExtends_join _ _ _ hparent hrel
  simp only [statePathsGood, Bool.and_eq_true] at hg ⊢
  split at h
  · split at h
    · cases h; exact hg
    · cases h
      exact ⟨by simpa [List.all_cons, hnew] using hg.1, hg.2⟩
  · split at h
    · split at h
      · cases h; exact hg
      · cases h
        exact ⟨by simpa [List.all_cons, hnew] using hg.1, hg.2⟩
    · cases h; exact hg

theorem handle_getattr_state (env : Env) (sys : Sys) (args : GetAttrOperation)
    (cfh : Option Nat) (res : OperationResult) (sys' : Sys)
    (h : handle_getattr env sys args cfh = .ok (res, sys')) : sys' = sys := by
  unfold handle_getattr at h
  repeat' split at h
  all_goals cases h
  all_goals rfl

theorem handle_getfh_state (env : Env) (sys : Sys) (args : GetFhOperation)
    (res : OperationResult) (sys' : Sys)
    (h : handle_getfh env sys args = .ok (res, sys')) :
    sys'.handles = sys.handles ∧ sys'.stateids = sys.stateids := by
  unfold handle_getfh freshTok at h
  cases h
  exact ⟨rfl, rfl⟩

theorem handle_lookup_good (env : Env) (sys : Sys) (args : LookupOperation)
    (cfh : Option Nat) (res : OperationResult) (sys' : Sys)
    (hrel : args.object_name.absolute = false) (hg : statePathsGood env sys = true)
    (h : handle_lookup env sys args cfh = .ok (res, sys')) :
    statePathsGood env sys' = true := by
  unfold handle_lookup freshTok at h
  dsimp only at h
  have hgsplit : sys.handles.all (fun kv => pathExtends env.exportRoot kv.2) = true ∧
      sys.stateids.all (fun kv => pathExtends env.exportRoot kv.2.path) = true := by
    simpa [statePathsGood, Bool.and_eq_true] using hg
  split at h
  · cases h; exact hg
  rename_i fh
  split at h
  · cases h; exact hg
  rename_i parent hfind
  have hparent : pathExtends env.exportRoot parent = true :=
    findKey_all_snd (pathExtends env.exportRoot) sys.handles fh parent hgsplit.1 hfind
  have hnew : pathExtends env.exportRoot (parent.join args.object_name) = true :=
    pathExtends_join _ _ _ hparent hrel
  split at h
  · cases h; exact hg
  · cases h
    simp only [statePathsGood, Bool.and_eq_true, List.all_cons]
    exact ⟨⟨hnew, hgsplit.1⟩, hgsplit.2⟩

theorem handle_open_good (env : Env) (sys : Sys) (args : OpenOperation)
    (cfh : Option Nat) (res : OperationResult) (sys' : Sys)
    (hrel : (match args.open_claim with | .Null p => !p.absolute | _ => true) = true)
    (hg : statePathsGood env sys = true)
    (h : handle_open env sys args cfh = .ok (res, sys')) :
    statePathsGood env sys' = true := by
  unfold handle_open freshTok at h
  dsimp only at h
  have hgsplit : sys.handles.all (fun kv => pathExtends env.exportRoot kv.2) = true ∧
      sys.stateids.all (fun kv => pathExtends env.exportRoot kv.2.path) = true := by
    simpa [statePathsGood, Bool.and_eq_true] using hg
  split at h
  · rename_i p hclaim
    rw [hclaim] at hrel
    dsimp only at hrel
    simp only [Bool.not_eq_true'] at hrel
    have hnew : pathExtends env.exportRoot (env.exportRoot.join p) = true :=
      pathExtends_join _ _ _ (pathExtends_refl _) hrel
    split at h
    · cases h
      simp only [statePathsGood, Bool.and_eq_true, List.all_cons]
      exact ⟨hgsplit.1, ⟨hnew, hgsplit.2⟩⟩
    · cases h
      simpa [statePathsGood, Bool.and_eq_true] using hg
  · cases h
    simpa [statePathsGood, Bool.and_eq_true] using hg

theorem handle_read_state (env : Env) (sys : Sys) (args : ReadOperation)
    (res : OperationResult) (sys' : Sys)
    (h : handle_read env sys args = .ok (res, sys')) : sys' = sys := by
  unfold handle_read at h
  repeat' split at h
  all_goals cases h
  all_goals rfl

theorem handle_write_state (env : Env) (sys : Sys) (args : WriteOperation)
    (res : OperationResult) (sys' : Sys)
    (h : handle_write env sys args = .ok (res, sys')) :
    sys'.handles = sys.handles ∧ sys'.stateids = sys.stateids := by
  unfold handle_write at h
  repeat' split at h
  all_goals cases h
  all_goals exact ⟨rfl, rfl⟩

/-- One dispatched operation with a relative name preserves path
confinement. -/
theorem dispatch_good (env : Env) (op : NfsOperation) (cfh : Option Nat) (sys : Sys)
    (res : OperationResult) (cfh' : Option Nat) (sys' : Sys)
    (hrel : opNamesRelative op = true) (hg : statePathsGood env sys = true)
    (h : dispatch env op cfh sys = .ok (res, cfh', sys')) :
    statePathsGood env sys' = true := by
  cases op with
  | Access args =>
    unfold dispatch at h
    dsimp only at h
    split at h
    · cases h
    rename_i s hx
    cases h
    rw [handle_access_state env sys args cfh _ _ hx]
    exact hg
  | Close args =>
    unfold dispatch at h
    dsimp only at h
    split at h
    · cases h
    rename_i s hx
    cases h
    exact handle_close_good env sys args _ _ hg hx
  | Commit args =>
    unfold dispatch at h
    dsimp only at h
    split at h
    · cases h
    rename_i s hx
    cases h
    rw [handle_commit_state env sys args cfh _ _ hx]
    exact hg
  | Create args =>
    unfold dispatch at h
    dsimp only at h
    split at h
    · cases h
    rename_i s hx
    cases h
    exact handle_create_good env sys args cfh _ _
      (by simpa [opNamesRelative] using hrel) hg hx
  | GetAttr args =>
    unfold dispatch at h
    dsimp only at h
    split at h
    · cases h
    rename_i s hx
    cases h
    rw [handle_getattr_state env sys args cfh _ _ hx]
    exact hg
  | GetFh args =>
    unfold dispatch at h
    dsimp only at h
    split at h
    · cases h
    rename_i s hx
    have hst := handle_getfh_state env sys args _ _ hx
    split at h
    all_goals cases h
    all_goals rw [statePathsGood_eq env _ sys hst.1 hst.2]
    all_goals exact hg
  | Lookup args =>
    unfold dispatch at h
    dsimp only at h
    split at h
    · cases h
    rename_i s hx
    have hgood := handle_lookup_good env sys args cfh _ s
      (by simpa [opNamesRelative] using hrel) hg hx
    split at h
    · split at h
      all_goals cases h
      all_goals exact hgood
    · cases h
      exact hgood
  | Lookupp args =>
    unfold dispatch at h
    dsimp only at h
    cases h
    exact hg
  | Open args =>
    unfold dispatch at h
    dsimp only at h
    split at h
    · cases h
    rename_i s hx
    cases h
    exact handle_open_good env sys args cfh _ _
      (by simpa [opNamesRelative] using hrel) hg hx
  | OpenConfirm args =>
    unfold dispatch at h
    dsimp only at h
    cases h
    exact hg
  | Read args =>
    unfold dispatch at h
    dsimp only at h
    split at h
    · cases h
    rename_i s hx
    cases h
    rw [handle_read_state env sys args _ _ hx]
    exact hg
  | Write args =>
    unfold dispatch at h
    dsimp only at h
    split at h
    · cases h
    rename_i s hx
    have hst := handle_write_state env sys args _ _ hx
    cases h
    rw [statePathsGood_eq env _ sys hst.1 hst.2]
    exact hg

theorem compoundLoop_good (env : Env) :
    ∀ (ops : List NfsOperation) (st : NfsStatus) (cfh : Option Nat) (sys : Sys)
      (rs : List OperationResult) (st' : NfsStatus) (sys' : Sys),
      ops.all opNamesRelative = true → statePathsGood env sys = true →
      compoundLoop env ops st cfh sys = .ok (rs, st', sys') →
      statePathsGood env sys' = true := by
  intro ops
  induction ops with
  | nil =>
    intro st cfh sys rs st' sys' _ hg h
    simp only [compoundLoop] at h
    cases h
    exact hg
  | cons op rest ih =>
    intro st cfh sys rs st' sys' hrel hg h
    simp only [List.all_cons, Bool.and_eq_true] at hrel
    simp only [compoundLoop] at h
    split at h
    · split at h
      · cases h
      rename_i hd
      split at h
      · cases h
      rename_i hl
      cases h
      exact ih _ _ _ _ _ _ hrel.2
        (dispatch_good _ _ _ _ _ _ _ hrel.1 hg hd) hl
    · cases h
      exact hg

/-- C2 (amended): for a COMPOUND whose client-supplied names and claim paths
are all relative, `handle_compound` preserves the invariant that every path
in the handle table and every `FileState` path is a prefix-extension of the
export root. -/
theorem c2_confinement_relative (env : Env) (sys : Sys) (req : CompoundRequest)
    (resp : CompoundResponse) (sys' : Sys)
    (hrel : reqNamesRelative req = true) (hg : statePathsGood env sys = true)
    (h : handle_compound env sys req = .ok (resp, sys')) :
    statePathsGood env sys' = true := by
  unfold handle_compound at h
  split at h
  · cases h
  rename_i results status sysq hl
  cases h
  exact compoundLoop_good env req.operations .Ok none sys results status sys' hrel hg hl

/-- The absolute claim path `/etc/passwd` a client can send in
`OpenClaim::Null`. -/
def pEscape : RPath := ⟨true, ["etc", "passwd"]⟩

def c2badReq : CompoundRequest := ⟨"x", 0, [.Open ⟨1, 5, 0, [], .Null pEscape⟩]⟩

def c2badState : FileState := ⟨pEscape, 5, 1, some pEscape⟩

def c2badSys : Sys :=
  ⟨[(pEscape, FsNode.file []), (R, FsNode.dir)], [], [(0, c2badState)], 1⟩

/-- C2 (counterexample): from a fresh state whose tables satisfy the
confinement invariant, an OPEN whose `Null` claim path is absolute records a
`FileState` whose path (`/etc/passwd`) is not under the export root —
`PathBuf::join` replaces the base entirely — so the claimed invariant fails
for absolute client-supplied paths. -/
theorem c2_counterexample :
    statePathsGood env0 sys0 = true ∧
    handle_compound env0 sys0 c2badReq =
      .ok (⟨"x", .Ok, [⟨.Ok, some (.Open 0)⟩]⟩, c2badSys) ∧
    statePathsGood env0 c2badSys = false :=
  ⟨rfl, rfl, rfl⟩

def c2wReq : CompoundRequest := ⟨"w", 0, [.Open ⟨1, 5, 0, [], .Null ⟨false, ["w.bin"]⟩⟩]⟩

def pW : RPath := ⟨true, ["tmp", "nfs_root", "w.bin"]⟩

def c2wState : FileState := ⟨pW, 5, 1, some pW⟩

def c2wSys : Sys := ⟨[(pW, FsNode.file []), (R, FsNode.dir)], [], [(0, c2wState)], 1⟩

/-- Witness for the amended C2 at a concrete relative-path OPEN. -/
theorem c2_confinement_relative_witness :
    reqNamesRelative c2wReq = true ∧ statePathsGood env0 sys0 = true ∧
    handle_compound env0 sys0 c2wReq =
      .ok (⟨"w", .Ok, [⟨.Ok, some (.Open 0)⟩]⟩, c2wSys) ∧
    statePathsGood env0 c2wSys = true := by
  refine ⟨rfl, rfl, rfl, ?_⟩
  exact c2_confinement_relative env0 sys0 c2wReq
    ⟨"w", .Ok, [⟨.Ok, some (.Open 0)⟩]⟩ c2wSys rfl rfl rfl

/-!
C3 — the OPEN/WRITE/CLOSE/OPEN/READ round trip.  The second OPEN carries
`share_access = ACCESS4_READ` only, so the handler calls
`OpenOptions::new().read(true).write(false).create(true)`, which the
standard library rejects with `EINVAL` (create requires write access): the
operation returns `IoError` and the READ is never executed.
-/

def pAbin : RPath := ⟨true, ["tmp", "nfs_root", "a.bin"]⟩

/-- First OPEN: claim `Null("a.bin")`, share `READ|MODIFY`. -/
def c3Open1 : NfsOperation := .Open ⟨1, 5, 0, [], .Null ⟨false, ["a.bin"]⟩⟩

/-- Second OPEN: claim `Null("a.bin")`, share `READ` only. -/
def c3Open2 : NfsOperation := .Open ⟨2, 1, 0, [], .Null ⟨false, ["a.bin"]⟩⟩

def c3St : FileState := ⟨pAbin, 5, 1, some pAbin⟩

def c3Sys1 : Sys := ⟨[(pAbin, FsNode.file []), (R, FsNode.dir)], [], [(0, c3St)], 1⟩

def c3Sys2 : Sys :=
  ⟨[(pAbin, FsNode.file [222, 173, 190, 239]), (pAbin, FsNode.file []), (R, FsNode.dir)],
   [], [(0, c3St)], 1⟩

def c3Sys3 : Sys :=
  ⟨[(pAbin, FsNode.file [222, 173, 190, 239]), (pAbin, FsNode.file []), (R, FsNode.dir)],
   [], [], 1⟩

def c3Sys4 : Sys :=
  ⟨[(pAbin, FsNode.file [222, 173, 190, 239]), (pAbin, FsNode.file []), (R, FsNode.dir)],
   [], [], 2⟩

/-- C3 (failing evaluation): OPEN(READ|MODIFY) → WRITE(0xDEADBEEF, stable) →
CLOSE all succeed, but the reopen with `share_access = READ` returns
`IoError` and the compound short-circuits before the READ, instead of the
claimed Ok round trip returning the data. -/
theorem c3_readonly_reopen_fails :
    handle_compound env0 sys0 ⟨"c1", 0, [c3Open1]⟩ =
      .ok (⟨"c1", .Ok, [⟨.Ok, some (.Open 0)⟩]⟩, c3Sys1) ∧
    handle_compound env0 c3Sys1 ⟨"c2", 0, [.Write ⟨0, 0, 1, [222, 173, 190, 239]⟩]⟩ =
      .ok (⟨"c2", .Ok, [⟨.Ok, some (.Write 4)⟩]⟩, c3Sys2) ∧
    handle_compound env0 c3Sys2 ⟨"c3", 0, [.Close ⟨1, 0⟩]⟩ =
      .ok (⟨"c3", .Ok, [⟨.Ok, none⟩]⟩, c3Sys3) ∧
    handle_compound env0 c3Sys3 ⟨"c4", 0, [c3Open2, .Read ⟨1, 0, 4⟩]⟩ =
      .ok (⟨"c4", .IoError, [⟨.IoError, none⟩]⟩, c3Sys4) :=
  ⟨rfl, rfl, rfl, rfl⟩

/-!
C4 — GETFH produces a handle the handle table does not know.
-/

/-- C4 (failing evaluation): `COMPOUND{tag="t1", [GETFH, GETATTR]}` on a
fresh server returns the GETFH handle with status Ok, but the following
GETATTR through that handle fails with `StaleFileHandle` — `handle_getfh`
never inserts the handle into the table (still empty afterwards) — instead
of yielding the export root's `NF4DIR` attributes. -/
theorem c4_getfh_then_getattr_stale :
    handle_compound env0 sys0 ⟨"t1", 0, [.GetFh ⟨⟩, .GetAttr ⟨[]⟩]⟩ =
      .ok (⟨"t1", .StaleFileHandle,
            [⟨.Ok, some (.GetFh 0)⟩, ⟨.StaleFileHandle, none⟩]⟩,
           ⟨[(R, FsNode.dir)], [], [], 1⟩) ∧
    findKey ([] : List (Nat × RPath)) 0 = none :=
  ⟨rfl, rfl⟩

/-!
C5 — the executor does not move the current-filehandle cursor after CREATE.
-/

/-- State with the GETFH token pre-registered to the export root, so that a
cursor established by GETFH resolves (the only way CREATE's precondition can
hold, since `handle_getfh` registers nothing). -/
def c5Sys0 : Sys := ⟨[(R, FsNode.dir)], [(0, R)], [], 0⟩

def anyAttrs : NfsFileAttributes := ⟨0, 0, 0, 0, ⟨0, 0⟩, ⟨0, 0⟩, "", ""⟩

def pA5 : RPath := ⟨true, ["tmp", "nfs_root", "a"]⟩

/-- Attributes of the export root directory under `env0`'s metadata. -/
def rootAttrs : NfsFileAttributes := ⟨NF4DIR, 493, 64, 4096, ⟨1, 2⟩, ⟨3, 4⟩, "0", "0"⟩

/-- C5 (failing evaluation): after a successful CREATE (which registers
handle 1 for the new file `a` and returns it), the GETATTR that follows in
the same COMPOUND still acts on the old cursor — it returns the directory's
attributes (`NF4DIR`), not the created file's — because the `Create` arm of
`handle_compound` never updates `current_fh`. -/
theorem c5_create_does_not_move_cursor :
    handle_compound env0 c5Sys0
        ⟨"t5", 0, [.GetFh ⟨⟩, .Create ⟨NF4REG, ⟨false, ["a"]⟩, anyAttrs⟩, .GetAttr ⟨[]⟩]⟩ =
      .ok (⟨"t5", .Ok,
            [⟨.Ok, some (.GetFh 0)⟩, ⟨.Ok, some (.GetFh 1)⟩,
             ⟨.Ok, some (.GetAttr rootAttrs)⟩]⟩,
           ⟨[(pA5, FsNode.file []), (R, FsNode.dir)], [(1, pA5), (0, R)], [], 2⟩) ∧
    rootAttrs.type_ = NF4DIR ∧
    findKey [(1, pA5), (0, R)] 1 = some pA5 :=
  ⟨rfl, rfl, rfl⟩

/-!
C6 — what `validate_network` does and does not guarantee.
-/

/-- Two CIDR blocks that share an address are nested, so one of them
contains the other's (unmasked) address: aligned dyadic ranges either nest
or are disjoint. -/
theorem cidr_meet (m n : Ipv4Net) (hm : m.prefixLen ≤ 32) (hn : n.prefixLen ≤ 32)
    (a : Nat) (h1 : containsA m a = true) (h2 : containsA n a = true) :
    containsA m n.addr = true ∨ containsA n m.addr = true := by
  simp only [containsA, beq_iff_eq] at h1 h2 ⊢
  rcases le_total m.prefixLen n.prefixLen with hle | hle
  · left
    have hB : blockSize m.prefixLen =
        blockSize n.prefixLen * 2 ^ (n.prefixLen - m.prefixLen) := by
      unfold blockSize
      rw [← pow_add]
      congr 1
      omega
    calc n.addr / blockSize m.prefixLen
        = n.addr / blockSize n.prefixLen / 2 ^ (n.prefixLen - m.prefixLen) := by
          rw [hB, Nat.div_div_eq_div_mul]
      _ = a / blockSize n.prefixLen / 2 ^ (n.prefixLen - m.prefixLen) := by rw [h2]
      _ = a / blockSize m.prefixLen := by rw [hB, Nat.div_div_eq_div_mul]
      _ = m.addr / blockSize m.prefixLen := h1
  · right
    have hB : blockSize n.prefixLen =
        blockSize m.prefixLen * 2 ^ (m.prefixLen - n.prefixLen) := by
      unfold blockSize
      rw [← pow_add]
      congr 1
      omega
    calc m.addr / blockSize n.prefixLen
        = m.addr / blockSize m.prefixLen / 2 ^ (m.prefixLen - n.prefixLen) := by
          rw [hB, Nat.div_div_eq_div_mul]
      _ = a / blockSize m.prefixLen / 2 ^ (m.prefixLen - n.prefixLen) := by rw [h1]
      _ = a / blockSize n.prefixLen := by rw [hB, Nat.div_div_eq_div_mul]
      _ = n.addr / blockSize n.prefixLen := h2

/-- C6 (counterexample): `10.0.0.0/7` is accepted by `validate_network` —
its network address 10.0.0.0 lies in 10.0.0.0/8 and neither protected check
fires — yet the address 11.0.0.0 belongs to 10.0.0.0/7 and not to
10.0.0.0/8, so the accepted network does not lie wholly inside 10.0.0.0/8. -/
theorem c6_counterexample :
    validate_network ⟨10 * 2 ^ 24, 7⟩ = .ok () ∧
    containsA ⟨10 * 2 ^ 24, 7⟩ (11 * 2 ^ 24) = true ∧
    containsA ALLOWED_NETWORK (11 * 2 ^ 24) = false :=
  ⟨rfl, rfl, rfl⟩

/-- C6 (amended): every network accepted by `validate_network` has its
network address inside 10.0.0.0/8 (whole-range containment is not checked),
and shares no address with 127.0.0.0/8 or 169.254.0.0/16 — the latter holds
in full because aligned CIDR ranges that intersect must nest
(`cidr_meet`), and nesting in either direction is caught by the
address-based overlap test. -/
theorem c6_validate_amended (n : Ipv4Net) (hn : n.prefixLen ≤ 32)
    (hv : validate_network n = .ok ()) :
    containsA ALLOWED_NETWORK n.addr = true ∧
    ∀ a : Nat, containsA n a = true →
      containsA PROTECTED_LO a = false ∧ containsA PROTECTED_LL a = false := by
  unfold validate_network at hv
  split at hv
  · cases hv
  rename_i h1
  split at hv
  · cases hv
  rename_i h2
  split at hv
  · cases hv
  rename_i h3
  have h2' : containsA PROTECTED_LO n.addr = false ∧
      containsA n PROTECTED_LO.addr = false := by
    simpa [not_or] using h2
  have h3' : containsA PROTECTED_LL n.addr = false ∧
      containsA n PROTECTED_LL.addr = false := by
    simpa [not_or] using h3
  refine ⟨by simpa using h1, fun a ha => ⟨?_, ?_⟩⟩
  · cases hLO : containsA PROTECTED_LO a with
    | false => rfl
    | true =>
      rcases cidr_meet PROTECTED_LO n (by decide) hn a hLO ha with hx | hx
      · simp [h2'.1] at hx
      · simp [h2'.2] at hx
  · cases hLL : containsA PROTECTED_LL a with
    | false => rfl
    | true =>
      rcases cidr_meet PROTECTED_LL n (by decide) hn a hLL ha with hx | hx
      · simp [h3'.1] at hx
      · simp [h3'.2] at hx

/-- Witness for the amended C6 at `10.0.0.0/24` and the address
`10.0.0.5`. -/
theorem c6_validate_amended_witness :
    validate_network ⟨10 * 2 ^ 24, 24⟩ = .ok () ∧
    containsA ALLOWED_NETWORK (10 * 2 ^ 24) = true ∧
    containsA ⟨10 * 2 ^ 24, 24⟩ (10 * 2 ^ 24 + 5) = true ∧
    containsA PROTECTED_LO (10 * 2 ^ 24 + 5) = false ∧
    containsA PROTECTED_LL (10 * 2 ^ 24 + 5) = false := by
  have hv : validate_network ⟨10 * 2 ^ 24, 24⟩ = .ok () := rfl
  have hc : containsA ⟨10 * 2 ^ 24, 24⟩ (10 * 2 ^ 24 + 5) = true := rfl
  have h := c6_validate_amended ⟨10 * 2 ^ 24, 24⟩ (by decide) hv
  exact ⟨hv, h.1, hc, (h.2 (10 * 2 ^ 24 + 5) hc).1, (h.2 (10 * 2 ^ 24 + 5) hc).2⟩

/-!
C7 — alias/dummy slot selection and exhaustion.
-/

theorem aliasSearch_spec (probe : Nat → Bool) :
    ∀ (fuel k : Nat), 255 ≤ fuel + k →
      k ≤ aliasSearch probe fuel k ∧
      (aliasSearch probe fuel k < 255 →
        probe (aliasSearch probe fuel k) = false ∧
        ∀ m, k ≤ m → m < aliasSearch probe fuel k → probe m = true) := by
  intro fuel
  induction fuel with
  | zero =>
    intro k hk
    simp only [aliasSearch]
    exact ⟨le_refl _, fun hlt => absurd hlt (by omega)⟩
  | succ fuel ih =>
    intro k hk
    simp only [aliasSearch]
    by_cases hklt : k < 255
    · rw [if_pos hklt]
      by_cases hp : probe k = true
      · rw [if_pos hp]
        obtain ⟨ihle, ihspec⟩ := ih (k + 1) (by omega)
        refine ⟨by omega, fun hlt => ?_⟩
        obtain ⟨hf, hall⟩ := ihspec hlt
        refine ⟨hf, fun m hm1 hm2 => ?_⟩
        rcases Nat.eq_or_lt_of_le hm1 with he | hlt2
        · rw [← he]; exact hp
        · exact hall m (by omega) hm2
      · rw [if_neg hp]
        have hpf : probe k = false := by simpa using hp
        exact ⟨le_refl _, fun _ => ⟨hpf, fun m hm1 hm2 => by omega⟩⟩
    · rw [if_neg hklt]
      exact ⟨le_refl _, fun hlt => absurd hlt (by omega)⟩

theorem aliasSearch_exhaust (probe : Nat → Bool)
    (hall : ∀ m, m < 255 → probe m = true) :
    ∀ (fuel k : Nat), k ≤ 255 → 255 ≤ fuel + k → aliasSearch probe fuel k = 255 := by
  intro fuel
  induction fuel with
  | zero => intro k h1 h2; simp only [aliasSearch]; omega
  | succ fuel ih =>
    intro k h1 h2
    simp only [aliasSearch]
    by_cases hklt : k < 255
    · rw [if_pos hklt, if_pos (hall k hklt)]
      exact ih (k + 1) (by omega) (by omega)
    · rw [if_neg hklt]
      omega

theorem dummyLoop_spec (env : NetEnv) (network : Ipv4Net) :
    ∀ (fuel k : Nat) (s : Subnet), dummyLoop env network fuel k = .ok s →
      k ≤ s.ifaceNum ∧ s.ifaceNum < 255 ∧ env.probe s.ifaceNum = false ∧
      (∀ m, k ≤ m → m < s.ifaceNum → env.probe m = true) := by
  intro fuel
  induction fuel with
  | zero => intro k s h; cases h
  | succ fuel ih =>
    intro k s h
    simp only [dummyLoop] at h
    by_cases hklt : k < 255
    · rw [if_pos hklt] at h
      by_cases hp : env.probe k = true
      · rw [if_pos hp] at h
        obtain ⟨h1, h2, h3, h4⟩ := ih (k + 1) s h
        refine ⟨by omega, h2, h3, fun m hm1 hm2 => ?_⟩
        rcases Nat.eq_or_lt_of_le hm1 with he | hlt2
        · rw [← he]; exact hp
        · exact h4 m (by omega) hm2
      · rw [if_neg hp] at h
        have hpf : env.probe k = false := by simpa using hp
        split at h
        · cases h
        split at h
        · cases h
        split at h
        · cases h
        cases h
        refine ⟨le_refl _, hklt, hpf, fun m hm1 hm2 => ?_⟩
        have hm2' : m < k := hm2
        omega
    · rw [if_neg hklt] at h
      cases h

theorem dummyLoop_exhaust (env : NetEnv) (network : Ipv4Net)
    (hall : ∀ m, m < 255 → env.probe m = true) :
    ∀ (fuel k : Nat), dummyLoop env network fuel k = .error .exhausted := by
  intro fuel
  induction fuel with
  | zero => intro k; rfl
  | succ fuel ih =>
    intro k
    simp only [dummyLoop]
    by_cases hklt : k < 255
    · rw [if_pos hklt, if_pos (hall k hklt)]
      exact ih (k + 1)
    · rw [if_neg hklt]

theorem aliasSearch_le (probe : Nat → Bool) :
    ∀ (fuel k : Nat), k ≤ 255 → aliasSearch probe fuel k ≤ 255 := by
  intro fuel
  induction fuel with
  | zero => intro k hk; exact hk
  | succ fuel ih =>
    intro k hk
    simp only [aliasSearch]
    by_cases hklt : k < 255
    · rw [if_pos hklt]
      by_cases hp : probe k = true
      · rw [if_pos hp]
        exact ih (k + 1) (by omega)
      · rw [if_neg hp]
        exact hk
    · rw [if_neg hklt]
      exact hk

/-- C7: on both platforms, a successful `configure_subnet` installed the
smallest slot `N` in `[0,255)` whose probe (`ifconfig lo0:N` on macOS,
`ip link show dummyN` on Linux) reported non-success; and when every probe
in `[0,255)` succeeds (all slots taken), `configure_subnet` returns the
exhaustion error without installing anything. -/
theorem c7_slot_selection (env : NetEnv) (network : Ipv4Net) :
    (∀ s, configure_subnet_macos env network = .ok s →
      s.ifaceNum < 255 ∧ env.probe s.ifaceNum = false ∧
      ∀ m, m < s.ifaceNum → env.probe m = true) ∧
    (∀ s, configure_subnet_linux env network = .ok s →
      s.ifaceNum < 255 ∧ env.probe s.ifaceNum = false ∧
      ∀ m, m < s.ifaceNum → env.probe m = true) ∧
    ((∀ m, m < 255 → env.probe m = true) →
      validate_network network = .ok () →
      is_subnet_available env network = .ok true →
      configure_subnet_macos env network = .error .exhausted ∧
      configure_subnet_linux env network = .error .exhausted) := by
  refine ⟨fun s h => ?_, fun s h => ?_, fun hall hv ha => ?_⟩
  · unfold configure_subnet_macos at h
    dsimp only at h
    split at h
    · cases h
    split at h
    · cases h
    · cases h
    by_cases h255 : aliasSearch env.probe 255 0 = 255
    · rw [if_pos h255] at h
      cases h
    · rw [if_neg h255] at h
      by_cases hok : env.aliasAddOk = true
      · rw [if_pos hok] at h
        cases h
        have hle := aliasSearch_le env.probe 255 0 (by omega)
        have hlt : aliasSearch env.probe 255 0 < 255 := by omega
        obtain ⟨hf, hmin⟩ := (aliasSearch_spec env.probe 255 0 (by omega)).2 hlt
        exact ⟨hlt, hf, fun m hm => hmin m (Nat.zero_le _) hm⟩
      · rw [if_neg hok] at h
        cases h
  · unfold configure_subnet_linux at h
    split at h
    · cases h
    split at h
    · cases h
    · cases h
    obtain ⟨h1, h2, h3, h4⟩ := dummyLoop_spec env network 255 0 s h
    exact ⟨h2, h3, fun m hm => h4 m (Nat.zero_le _) hm⟩
  · have hsearch := aliasSearch_exhaust env.probe hall 255 0 (by omega) (by omega)
    constructor
    · unfold configure_subnet_macos
      rw [hv, ha]
      dsimp only
      rw [if_pos hsearch]
    · unfold configure_subnet_linux
      rw [hv, ha]
      exact dummyLoop_exhaust env network hall 255 0

/-- All-slots-taken environment: every probe reports an existing slot. -/
def envFull : NetEnv :=
  { probe := fun _ => true, hostAddrs := [],
    aliasAddOk := true, linkAddOk := true, addrAddOk := true, linkUpOk := true }

/-- Environment in which slots 0, 1, 2 are taken and slot 3 is free. -/
def envSlots : NetEnv :=
  { probe := fun n => decide (n < 3), hostAddrs := [],
    aliasAddOk := true, linkAddOk := true, addrAddOk := true, linkUpOk := true }

def c7net : Ipv4Net := ⟨10 * 2 ^ 24, 24⟩

/-- Witness for C7: with slots 0..2 taken the chosen slot is 3 (free, and
below 255); with all 255 slots taken both platforms report exhaustion. -/
theorem c7_slot_selection_witness :
    configure_subnet_macos envSlots c7net = .ok ⟨3, c7net⟩ ∧
    (3 < 255 ∧ envSlots.probe 3 = false) ∧
    configure_subnet_macos envFull c7net = .error .exhausted ∧
    configure_subnet_linux envFull c7net = .error .exhausted := by
  have hok : configure_subnet_macos envSlots c7net = .ok ⟨3, c7net⟩ := by rfl
  have h1 := (c7_slot_selection envSlots c7net).1 ⟨3, c7net⟩ hok
  have h2 := (c7_slot_selection envFull c7net).2.2 (fun m _ => rfl) (by rfl) (by rfl)
  exact ⟨hok, ⟨h1.1, h1.2.1⟩, h2.1, h2.2⟩

/-!
C8 — an undecodable COMPOUND payload ends the connection instead of
producing a GARBAGE_ARGS reply.
-/

/-- Codec environment whose COMPOUND decoder always fails. -/
def renvBad : RpcEnv := ⟨fun _ => none, fun _ => []⟩

/-- A Call addressed to program 100003 version 4 whose payload bytes fail
XDR decode under `renvBad`. -/
def c8msg : RpcMsg :=
  ⟨7, .Call ⟨RPC_VERSION, NFS_PROGRAM, NFS_VERSION, 1,
             ⟨AUTH_NONE, []⟩, ⟨AUTH_NONE, []⟩, [1, 2, 3]⟩⟩

/-- C8 (failing evaluation): when the COMPOUND payload of a Call for
program 100003 version 4 fails XDR decode, the per-message processing of
`handle_client` propagates the error (the `?` at main.rs:78), so
`handle_client` returns `Err` and the connection is dropped without any
reply — `new_garbage_args_reply` exists in rpc.rs but is never called — in
contrast to the claimed Accepted/GARBAGE_ARGS reply and continued service. -/
theorem c8_decode_failure_drops_connection :
    processRpcMsg renvBad env0 sys0 c8msg = .error .decodeError :=
  rfl

/-!
C9 — which failures propagate out of `handle_compound`.
-/

def c9p : RPath := ⟨true, ["tmp", "nfs_root", "f"]⟩

def c9St : FileState := ⟨c9p, 5, 1, some c9p⟩

/-- Environment in which every `try_clone` fails. -/
def envCloneFail : Env := { env0 with cloneFail := fun _ => true }

def c9Sys : Sys := ⟨[(c9p, FsNode.file [1, 2, 3])], [], [(0, c9St)], 1⟩

/-- C9 (counterexample): a READ whose `try_clone` fails makes
`handle_compound` return a propagated error instead of a response — the
handler's `file.try_clone().await?` escapes the compound. -/
theorem c9_counterexample :
    handle_compound envCloneFail c9Sys ⟨"r", 0, [.Read ⟨0, 0, 4⟩]⟩ =
      .error .cloneFail :=
  rfl

def exceptIsOk {ε α : Type} : Except ε α → Bool
  | .ok _ => true
  | .error _ => false

theorem handle_access_ok (env : Env) (sys : Sys) (args : AccessOperation)
    (cfh : Option Nat) : exceptIsOk (handle_access env sys args cfh) = true := by
  unfold handle_access
  repeat' split
  all_goals rfl

theorem handle_close_ok (sys : Sys) (args : CloseOperation) :
    exceptIsOk (handle_close sys args) = true := by
  unfold handle_close
  repeat' split
  all_goals rfl

theorem handle_commit_ok (env : Env) (sys : Sys) (args : CommitOperation)
    (cfh : Option Nat) (hy : ∀ p, env.syncFail p = false) :
    exceptIsOk (handle_commit env sys args cfh) = true := by
  unfold handle_commit
  repeat' split
  all_goals simp_all [exceptIsOk]

theorem handle_create_ok (env : Env) (sys : Sys) (args : CreateOperation)
    (cfh : Option Nat) : exceptIsOk (handle_create env sys args cfh) = true := by
  unfold handle_create
  dsimp only
  repeat' split
  all_goals rfl

theorem handle_getattr_ok (env : Env) (sys : Sys) (args : GetAttrOperation)
    (cfh : Option Nat) : exceptIsOk (handle_getattr env sys args cfh) = true := by
  unfold handle_getattr
  dsimp only
  repeat' split
  all_goals rfl

theorem handle_getfh_ok (env : Env) (sys : Sys) (args : GetFhOperation) :
    exceptIsOk (handle_getfh env sys args) = true := rfl

theorem handle_lookup_ok (env : Env) (sys : Sys) (args : LookupOperation)
    (cfh : Option Nat) : exceptIsOk (handle_lookup env sys args cfh) = true := by
  unfold handle_lookup
  dsimp only
  repeat' split
  all_goals rfl

theorem handle_open_ok (env : Env) (sys : Sys) (args : OpenOperation)
    (cfh : Option Nat) : exceptIsOk (handle_open env sys args cfh) = true := by
  unfold handle_open
  dsimp only
  repeat' split
  all_goals rfl

theorem handle_read_ok (env : Env) (sys : Sys) (args : ReadOperation)
    (hc : ∀ p, env.cloneFail p = false) (hs : ∀ p, env.seekFail p = false) :
    exceptIsOk (handle_read env sys args) = true := by
  unfold handle_read
  dsimp only
  repeat' split
  all_goals simp_all [exceptIsOk]

theorem handle_write_ok (env : Env) (sys : Sys) (args : WriteOperation)
    (hc : ∀ p, env.cloneFail p = false) (hs : ∀ p, env.seekFail p = false)
    (hy : ∀ p, env.syncFail p = false) :
    exceptIsOk (handle_write env sys args) = true := by
  unfold handle_write
  dsimp only
  repeat' split
  all_goals simp_all [exceptIsOk]

theorem dispatch_no_fault (env : Env) (hc : ∀ p, env.cloneFail p = false)
    (hs : ∀ p, env.seekFail p = false) (hy : ∀ p, env.syncFail p = false)
    (op : NfsOperation) (cfh : Option Nat) (sys : Sys) :
    exceptIsOk (dispatch env op cfh sys) = true := by
  cases op with
  | Access args =>
    unfold dispatch
    dsimp only
    cases hx : handle_access env sys args cfh with
    | error e =>
      have hok := handle_access_ok env sys args cfh
      rw [hx] at hok
      exact Bool.noConfusion hok
    | ok v =>
      obtain ⟨res, sys1⟩ := v
      rfl
  | Close args =>
    unfold dispatch
    dsimp only
    cases hx : handle_close sys args with
    | error e =>
      have hok := handle_close_ok sys args
      rw [hx] at hok
      exact Bool.noConfusion hok
    | ok v =>
      obtain ⟨res, sys1⟩ := v
      rfl
  | Commit args =>
    unfold dispatch
    dsimp only
    cases hx : handle_commit env sys args cfh with
    | error e =>
      have hok := handle_commit_ok env sys args cfh hy
      rw [hx] at hok
      exact Bool.noConfusion hok
    | ok v =>
      obtain ⟨res, sys1⟩ := v
      rfl
  | Create args =>
    unfold dispatch
    dsimp only
    cases hx : handle_create env sys args cfh with
    | error e =>
      have hok := handle_create_ok env sys args cfh
      rw [hx] at hok
      exact Bool.noConfusion hok
    | ok v =>
      obtain ⟨res, sys1⟩ := v
      rfl
  | GetAttr args =>
    unfold dispatch
    dsimp only
    cases hx : handle_getattr env sys args cfh with
    | error e =>
      have hok := handle_getattr_ok env sys args cfh
      rw [hx] at hok
      exact Bool.noConfusion hok
    | ok v =>
      obtain ⟨res, sys1⟩ := v
      rfl
  | GetFh args =>
    unfold dispatch
    dsimp only
    cases hx : handle_getfh env sys args with
    | error e =>
      have hok := handle_getfh_ok env sys args
      rw [hx] at hok
      exact Bool.noConfusion hok
    | ok v =>
      obtain ⟨res, sys1⟩ := v
      dsimp only
      repeat' split
      all_goals rfl
  | Lookup args =>
    unfold dispatch
    dsimp only
    cases hx : handle_lookup env sys args cfh with
    | error e =>
      have hok := handle_lookup_ok env sys args cfh
      rw [hx] at hok
      exact Bool.noConfusion hok
    | ok v =>
      obtain ⟨res, sys1⟩ := v
      dsimp only
      repeat' split
      all_goals rfl
  | Lookupp args => rfl
  | Open args =>
    unfold dispatch
    dsimp only
    cases hx : handle_open env sys args cfh with
    | error e =>
      have hok := handle_open_ok env sys args cfh
      rw [hx] at hok
      exact Bool.noConfusion hok
    | ok v =>
      obtain ⟨res, sys1⟩ := v
      rfl
  | OpenConfirm args => rfl
  | Read args =>
    unfold dispatch
    dsimp only
    cases hx : handle_read env sys args with
    | error e =>
      have hok := handle_read_ok env sys args hc hs
      rw [hx] at hok
      exact Bool.noConfusion hok
    | ok v =>
      obtain ⟨res, sys1⟩ := v
      rfl
  | Write args =>
    unfold dispatch
    dsimp only
    cases hx : handle_write env sys args with
    | error e =>
      have hok := handle_write_ok env sys args hc hs hy
      rw [hx] at hok
      exact Bool.noConfusion hok
    | ok v =>
      obtain ⟨res, sys1⟩ := v
      rfl

theorem compoundLoop_no_fault (env : Env) (hc : ∀ p, env.cloneFail p = false)
    (hs : ∀ p, env.seekFail p = false) (hy : ∀ p, env.syncFail p = false) :
    ∀ (ops : List NfsOperation) (st : NfsStatus) (cfh : Option Nat) (sys : Sys),
      exceptIsOk (compoundLoop env ops st cfh sys) = true := by
  intro ops
  induction ops with
  | nil => intro st cfh sys; rfl
  | cons op rest ih =>
    intro st cfh sys
    simp only [compoundLoop]
    by_cases hst : st = .Ok
    · rw [if_pos hst]
      cases hx : dispatch env op cfh sys with
      | error e =>
        have hok := dispatch_no_fault env hc hs hy op cfh sys
        rw [hx] at hok
        exact Bool.noConfusion hok
      | ok v =>
        obtain ⟨res, cfh2, sys1⟩ := v
        dsimp only
        cases hl : compoundLoop env rest res.status cfh2 sys1 with
        | error e =>
          have hok := ih res.status cfh2 sys1
          rw [hl] at hok
          exact Bool.noConfusion hok
        | ok w =>
          obtain ⟨tail, st2, sys2⟩ := w
          rfl
    · rw [if_neg hst]
      rfl

/-- C9 (amended): failures of open, create, metadata, data read and data
write surface as `IoError`/`NoEnt` statuses inside the response; but
`try_clone`, `seek` and `sync_all` failures propagate out of
`handle_compound` as errors (never panics — the embedding is total).  When
no clone, seek or sync fault occurs, `handle_compound` always returns a
response. -/
theorem c9_no_fault_returns_response (env : Env) (sys : Sys) (req : CompoundRequest)
    (hc : ∀ p, env.cloneFail p = false) (hs : ∀ p, env.seekFail p = false)
    (hy : ∀ p, env.syncFail p = false) :
    exceptIsOk (handle_compound env sys req) = true := by
  unfold handle_compound
  cases hl : compoundLoop env req.operations .Ok none sys with
  | error e =>
    have hok := compoundLoop_no_fault env hc hs hy req.operations .Ok none sys
    rw [hl] at hok
    exact Bool.noConfusion hok
  | ok w =>
    obtain ⟨results, status, sysq⟩ := w
    rfl

/-- Witness for the amended C9 under a fault-free environment. -/
theorem c9_no_fault_returns_response_witness :
    exceptIsOk (handle_compound env0 c9Sys ⟨"r", 0, [.Read ⟨0, 0, 4⟩]⟩) = true :=
  c9_no_fault_returns_response env0 c9Sys ⟨"r", 0, [.Read ⟨0, 0, 4⟩]⟩
    (fun _ => rfl) (fun _ => rfl) (fun _ => rfl)

/-!
C10 — OPEN ignores the current-filehandle cursor.
-/

/-- C10: `handle_open` neither reads nor requires the cursor — its result is
identical for any two cursor values — and for a `Null(p)` claim a
successful OPEN registers a `FileState` at `export_root.join(p)` with the
requested share mask and seqid, under the freshly drawn stateid. -/
theorem c10_open_ignores_cursor (env : Env) (sys : Sys) (args : OpenOperation)
    (cfh cfh' : Option Nat) (p : RPath) :
    handle_open env sys args cfh = handle_open env sys args cfh' ∧
    (args.open_claim = .Null p →
      ∀ res sys2, handle_open env sys args cfh = .ok (res, sys2) →
        res.status = .Ok →
          res.result = some (.Open (env.fresh sys.ctr)) ∧
          findKey sys2.stateids (env.fresh sys.ctr) =
            some ⟨env.exportRoot.join p, args.share_access, args.seqid,
                  some (env.exportRoot.join p)⟩) := by
  constructor
  · rfl
  · intro hclaim res sys2 h hst
    unfold handle_open freshTok at h
    rw [hclaim] at h
    dsimp only at h
    split at h
    · cases h
      exact ⟨rfl, by simp [findKey]⟩
    · cases h
      cases hst

def c10args : OpenOperation := ⟨1, 5, 0, [], .Null ⟨false, ["w"]⟩⟩

def c10p : RPath := ⟨true, ["tmp", "nfs_root", "w"]⟩

def c10St : FileState := ⟨c10p, 5, 1, some c10p⟩

def c10Sys : Sys := ⟨[(c10p, FsNode.file []), (R, FsNode.dir)], [], [(0, c10St)], 1⟩

/-- Witness for C10 at a concrete OPEN, with cursor unset versus set. -/
theorem c10_open_ignores_cursor_witness :
    handle_open env0 sys0 c10args none = handle_open env0 sys0 c10args (some 9) ∧
    (⟨.Ok, some (.Open 0)⟩ : OperationResult).result =
      some (.Open (env0.fresh sys0.ctr)) ∧
    findKey c10Sys.stateids (env0.fresh sys0.ctr) =
      some ⟨env0.exportRoot.join ⟨false, ["w"]⟩, c10args.share_access, c10args.seqid,
            some (env0.exportRoot.join ⟨false, ["w"]⟩)⟩ := by
  have h := c10_open_ignores_cursor env0 sys0 c10args none (some 9) ⟨false, ["w"]⟩
  have h2 := h.2 rfl ⟨.Ok, some (.Open 0)⟩ c10Sys (by rfl) rfl
  exact ⟨h.1, h2.1, h2.2⟩

end NF
